import Mathlib

/-!
Shallow embedding of `src/stair_track.py` (the "Stair Trek" progress tracker).

Modelling conventions used throughout:
* A pandas DataFrame holding the stairs table is a `DataFrame`: its `Date` and
  `Flights` columns are the list `rows` of `Row` values (one row per record,
  order preserved).  The optional `weekCol` / `monthCol` fields stand for the
  derived `Week` / `Month` columns (`none` when absent); in every frame this
  program builds they remain `none`, because the only assignment site
  (lines 32-33) is never reached — see `calculate_averages`.
* Calendar dates (`datetime.date`) are `Date` triples; `isoWeek` and
  `Date.month` give the calendar meaning of pandas
  `Series.dt.isocalendar().week` / `Series.dt.month` (ISO-8601 week
  computation implemented below).  The `.dt` accessor itself, however,
  raises AttributeError on a Series that is not datetime-typed, and
  `load_data` (line 19) / `save_data` (line 26) normalize the `Date` column
  to `datetime.date` objects — object dtype — so the accessor use at line 32
  raises on every non-empty frame; `calculate_averages` models the raise as
  `Except.error`.  The projector's `groupby('Date')` at line 46 uses no
  `.dt` accessor and works fine on the date objects.
* Python floats are modelled exactly as rationals `ℚ`; `int()` applied to a
  float is `truncQ` (truncation toward zero); a `datetime` is modelled as the
  rational number of days since the proleptic-Gregorian epoch 0000-03-01, so
  `datetime + timedelta(days = x)` is rational addition.
* The persisted CSV file `stairs_data.csv` is `Option CsvFile`: `none` when the
  file does not exist, otherwise the list of data lines, each line being the
  pair of the two comma-separated cell character strings (`Date`, `Flights`).
-/

/-- Calendar date `datetime.date(year, month, day)`. -/
structure Date where
  year : Nat
  month : Nat
  day : Nat
deriving DecidableEq

/-- Gregorian leap-year test. -/
def isLeap (y : Nat) : Bool :=
  (y % 4 == 0 && y % 100 != 0) || (y % 400 == 0)

/-- Number of days in a month of a given year. -/
def daysInMonth (y m : Nat) : Nat :=
  if m = 2 then (if isLeap y then 29 else 28)
  else if m = 4 ∨ m = 6 ∨ m = 9 ∨ m = 11 then 30
  else 31

/-- Number of days of year `y` that precede month `m`. -/
def daysBeforeMonth (y m : Nat) : Nat :=
  (match m with
   | 1 => 0 | 2 => 31 | 3 => 59 | 4 => 90 | 5 => 120 | 6 => 151
   | 7 => 181 | 8 => 212 | 9 => 243 | 10 => 273 | 11 => 304 | _ => 334)
  + (if 3 ≤ m ∧ isLeap y then 1 else 0)

/-- Ordinal day of the year, 1-based (Jan 1 is day 1). -/
def dayOfYear (d : Date) : Nat :=
  daysBeforeMonth d.year d.month + d.day

/-- Count of days from 0000-03-01 (proleptic Gregorian) to the given date;
the standard civil-from-days era decomposition. -/
def rataDie (d : Date) : Nat :=
  let y := if d.month ≤ 2 then d.year - 1 else d.year
  let m := if d.month ≤ 2 then d.month + 9 else d.month - 3
  let era := y / 400
  let yoe := y % 400
  let doy := (153 * m + 2) / 5 + d.day - 1
  era * 146097 + yoe * 365 + yoe / 4 - yoe / 100 + doy

/-- ISO day of week: 1 = Monday .. 7 = Sunday (0000-03-01 was a Wednesday). -/
def isoDow (d : Date) : Nat :=
  (rataDie d + 2) % 7 + 1

/-- Weekday (0 = Sunday convention) of December 31 of year `y`; auxiliary for
the count of ISO weeks in a year. -/
def pYear (y : Nat) : Nat :=
  (y + y / 4 - y / 100 + y / 400) % 7

/-- Number of ISO weeks (52 or 53) in year `y`. -/
def isoWeeksInYear (y : Nat) : Nat :=
  if pYear y = 4 ∨ pYear (y - 1) = 3 then 53 else 52

/-- ISO-8601 week number of a date: what a well-typed pandas
`isocalendar().week` yields.  Line 32 of the source attempts this
computation but raises first (see `calculate_averages`); the function is
kept to record the year-ignoring grouping keys of the source text. -/
def isoWeek (d : Date) : Nat :=
  let w := (dayOfYear d + 10 - isoDow d) / 7
  if w = 0 then isoWeeksInYear (d.year - 1)
  else if w = 53 ∧ isoWeeksInYear d.year = 52 then 1
  else w

/-- A date whose fields form a real calendar date. -/
def ValidDate (d : Date) : Prop :=
  1 ≤ d.month ∧ d.month ≤ 12 ∧ 1 ≤ d.day ∧ d.day ≤ daysInMonth d.year d.month

instance (d : Date) : Decidable (ValidDate d) := by
  unfold ValidDate; infer_instance

/-- One row of the stairs table: a `Date` cell and a `Flights` cell
(the UI enters flights with `min_value=0, step=1`, so a natural number). -/
structure Row where
  date : Date
  flights : Nat
deriving DecidableEq

/-- The in-memory pandas DataFrame: the two persistent columns as `rows`,
plus the derived `Week` / `Month` columns when present.  In this program
they are never assigned (the only assignments, lines 32-33, raise before
assigning), so every frame the program builds carries `none` here. -/
structure DataFrame where
  rows : List Row
  weekCol : Option (List Nat) := none
  monthCol : Option (List Nat) := none
deriving DecidableEq

/-- Sum of the `Flights` column over the rows whose key equals `k`:
one group of `data.groupby(key)['Flights'].sum()`. -/
def groupSum {K : Type} [DecidableEq K] (rows : List Row) (key : Row → K) (k : K) : Nat :=
  ((rows.filter (fun r => decide (key r = k))).map (fun r => r.flights)).sum

/-- The distinct key values occurring in the rows (the index of the
grouped-and-summed series). -/
def groupKeys {K : Type} [DecidableEq K] (rows : List Row) (key : Row → K) : List K :=
  (rows.map key).dedup

/-- The series `data.groupby(key)['Flights'].sum()`: one summed value per
distinct key. -/
def groupSums {K : Type} [DecidableEq K] (rows : List Row) (key : Row → K) : List Nat :=
  (groupKeys rows key).map (groupSum rows key)

/-- Arithmetic mean of a list of naturals, as an exact rational
(`Series.mean()`; only applied to non-empty series in the source). -/
def mean (l : List Nat) : ℚ :=
  (l.sum : ℚ) / (l.length : ℚ)

/-- The expression `data.groupby('Date')['Flights'].sum().mean()` appearing at
lines 35 and 46 of the source. -/
def daily_avg (rows : List Row) : ℚ :=
  mean (groupSums rows (fun r => r.date))

/-- The message of the AttributeError pandas raises when the `.dt` accessor
is applied to a Series that is not datetime-typed. -/
def dtAccessorError : String := "Can only use .dt accessor with datetimelike values"

/-- Lines 30-40, `calculate_averages(data)`.  The empty branch (lines 38-40)
returns the zero triple without touching the frame.  The non-empty branch
first evaluates `data['Date'].dt` (line 32); every frame this program passes
in has its `Date` column normalized to `datetime.date` objects — object
dtype — by `load_data` (line 19) or `save_data` (line 26), and the `.dt`
accessor on an object-dtype Series raises AttributeError.  The exception is
raised while evaluating the right-hand side, before the `Week` / `Month`
assignments, the group-bys, or any mean: the function raises without
mutating the frame and without computing anything.  The embedding therefore
returns that error for every non-empty frame; the would-be means of
lines 35-37 are unreachable code and are deliberately not modelled. -/
def calculate_averages (df : DataFrame) : Except String (DataFrame × ℚ × ℚ × ℚ) :=
  if df.rows.isEmpty then .ok (df, 0, 0, 0)
  else .error dtAccessorError

/-- Line 12: `TOTAL_FLIGHTS_KINABALU = 13435 / 8` (a Python float; the value
1679.375 is exactly representable, so the rational is exact). -/
def TOTAL_FLIGHTS_KINABALU : ℚ := 13435 / 8

/-- Python `int()` applied to a float: truncation toward zero.  CPython
truncates the quotient; on a rational `q` this is `q.num.tdiv q.den`. -/
def truncQ (q : ℚ) : ℤ :=
  q.num.tdiv (q.den : ℤ)

/-- Cast of the total flights sum (`data['Flights'].sum()`, line 45 and the
dashboard's `total_flights` at line 121) as a rational. -/
def totalFlights (rows : List Row) : ℚ :=
  (((rows.map (fun r => r.flights)).sum : ℕ) : ℚ)

/-- Lines 43-52, `predict_completion_date(data)`.  `today` is the rational
day-number of `datetime.today()`.  The source returns the completion datetime
formatted `'%Y-%m-%d'` together with `int(days_to_completion)`; the embedding
returns the completion datetime as its rational day-number and the truncated
day count; `(None, None)` is `none`. -/
def predict_completion_date (today : ℚ) (df : DataFrame) : Option (ℚ × ℤ) :=
  if df.rows.isEmpty then none
  else
    let total_flights_climbed : ℚ := totalFlights df.rows
    let davg : ℚ := daily_avg df.rows
    if 0 < davg then
      let remaining_flights := TOTAL_FLIGHTS_KINABALU - total_flights_climbed
      let days_to_completion := remaining_flights / davg
      some (today + days_to_completion, truncQ days_to_completion)
    else none

/-- Character for a decimal digit value. -/
def dchar (d : Nat) : Char := Char.ofNat (48 + d)

/-- Decimal digit value of a character. -/
def charVal (c : Char) : Nat := c.toNat - 48

/-- Decimal numeral digits of `n`, most significant first; `fuel` is a
structural bound making the recursion kernel-reducible. -/
def natCharsCore : Nat → Nat → List Char
  | 0, _ => []
  | fuel + 1, n => if n = 0 then [] else natCharsCore fuel (n / 10) ++ [dchar (n % 10)]

/-- Decimal numeral of a natural number, as Python `str` renders it
(most significant digit first, `0` rendered as `"0"`). -/
def natChars (n : Nat) : List Char :=
  if n = 0 then [dchar 0] else natCharsCore n n

/-- Value of a decimal numeral (how pandas reads an integer cell back). -/
def parseNatChars (l : List Char) : Nat :=
  Nat.ofDigits 10 ((l.map charVal).reverse)

/-- Left-pad with zeros to width `w` (`strftime` field padding). -/
def padLeft (w : Nat) (l : List Char) : List Char :=
  List.replicate (w - l.length) (dchar 0) ++ l

/-- Separator of the ISO date fields. -/
def hyphen : Char := Char.ofNat 45

/-- ISO-8601 rendering `YYYY-MM-DD` of a date: how both `str(datetime.date)`
and the CSV writer render the `Date` cell. -/
def dateChars (d : Date) : List Char :=
  padLeft 4 (natChars d.year) ++ [hyphen] ++ padLeft 2 (natChars d.month)
    ++ [hyphen] ++ padLeft 2 (natChars d.day)

/-- Split a character list at every occurrence of `sep`. -/
def splitOnChar (sep : Char) : List Char → List (List Char)
  | [] => [[]]
  | c :: cs =>
    if c = sep then [] :: splitOnChar sep cs
    else
      match splitOnChar sep cs with
      | [] => [[c]]
      | l :: ls => (c :: l) :: ls

/-- Read an ISO `YYYY-MM-DD` cell back into a date
(`pd.to_datetime` / `parse_dates`; `none` when the cell is not a date,
which makes the load fatal, matching the reference behavior). -/
def parseDateChars (l : List Char) : Option Date :=
  match splitOnChar hyphen l with
  | [ys, ms, ds] =>
    let y := parseNatChars ys
    let m := parseNatChars ms
    let dd := parseNatChars ds
    if 1 ≤ m ∧ m ≤ 12 ∧ 1 ≤ dd ∧ dd ≤ daysInMonth y m then some ⟨y, m, dd⟩
    else none
  | _ => none

/-- One data line of `stairs_data.csv`: the `Date` cell and the `Flights`
cell (the header line is implicit in the representation). -/
def CsvLine : Type := List Char × List Char

/-- The body of `stairs_data.csv`. -/
def CsvFile : Type := List CsvLine

/-- Render one row to its CSV line. -/
def serializeRow (r : Row) : CsvLine :=
  (dateChars r.date, natChars r.flights)

/-- Lines 25-27, `save_data(data)`: normalize the `Date` column to date-only
values and overwrite the whole CSV file with the table
(`data.to_csv(DATA_FILE, index=False)`). -/
def save_data (rows : List Row) : CsvFile :=
  rows.map serializeRow

/-- Parse one CSV line back into a row (`read_csv` with
`parse_dates=["Date"]` followed by the date-only normalization of line 19). -/
def parseRow (c : CsvLine) : Option Row :=
  (parseDateChars c.1).map (fun d => ⟨d, parseNatChars c.2⟩)

/-- Parse every CSV line; any malformed line makes the whole load fail,
matching the fatal reference behavior on a malformed persisted file. -/
def parseRows : CsvFile → Option (List Row)
  | [] => some []
  | c :: cs =>
    match parseRow c, parseRows cs with
    | some r, some rs => some (r :: rs)
    | _, _ => none

/-- Lines 16-22, `load_data()`: when `stairs_data.csv` does not exist
(`os.path.exists` is false) return the empty table, otherwise read and parse
the file, normalizing dates to date-only values. -/
def load_data (file : Option CsvFile) : Option (List Row) :=
  match file with
  | none => some []
  | some f => parseRows f

/-- Lines 223-231, the `Add Entry` handler: if a record for the chosen date
already exists (`today in data['Date'].astype(str).values` — the comparison
is between ISO date strings, modelled by `dateChars`, and is proved below to
coincide with date equality) the entry is rejected with a warning and nothing
is saved; otherwise the new row is appended (`pd.concat`) and the table is
saved.  Result: the persisted file, the in-memory table, and whether the
entry was accepted. -/
def addEntryHandler (file : Option CsvFile) (rows : List Row) (d : Date) (flights : Nat) :
    Option CsvFile × List Row × Bool :=
  if rows.any (fun r => decide (dateChars r.date = dateChars d)) then
    (file, rows, false)
  else
    let rows2 := rows ++ [⟨d, flights⟩]
    (some (save_data rows2), rows2, true)

/-- Lines 247-249, the `Reset Data` handler: replace the table by an empty
frame and save it. -/
def reset_handler (_file : Option CsvFile) : Option CsvFile × List Row :=
  (some (save_data []), [])

/-! ### Concrete example data used by the witnesses and counterexamples -/

/-- A one-record table: 100 flights on 2024-01-01. -/
def exDf1 : DataFrame := ⟨[⟨⟨2024, 1, 1⟩, 100⟩], none, none⟩

/-- A one-record table: 2000 flights, already beyond the 1679.375 target. -/
def exDf4 : DataFrame := ⟨[⟨⟨2024, 1, 1⟩, 2000⟩], none, none⟩

/-- A two-record table with two distinct dates (daily average 15, total 30). -/
def exDf5 : DataFrame := ⟨[⟨⟨2024, 1, 1⟩, 10⟩, ⟨⟨2024, 1, 2⟩, 20⟩], none, none⟩

/-- A one-record table: the smallest frame on which line 32 raises. -/
def exDf7 : DataFrame := ⟨[⟨⟨2024, 1, 1⟩, 5⟩], none, none⟩

/-- A one-record table giving the fractional positive quotient
(13435/8 - 800)/800 = 7035/6400 of days to completion. -/
def exDf10a : DataFrame := ⟨[⟨⟨2024, 1, 1⟩, 800⟩], none, none⟩

/-- A one-record table giving the fractional negative quotient
(13435/8 - 1700)/1700 = -165/13600 of days to completion. -/
def exDf10b : DataFrame := ⟨[⟨⟨2024, 1, 1⟩, 1700⟩], none, none⟩

/-- Records in the same ISO week number (week 6) and the same month number
(February) of two different years. -/
def crossYearDf : DataFrame := ⟨[⟨⟨2023, 2, 6⟩, 10⟩, ⟨⟨2024, 2, 5⟩, 20⟩], none, none⟩

/-- Existing stored record used by the duplicate-date witness. -/
def exRows3 : List Row := [⟨⟨2024, 1, 1⟩, 50⟩]

/-- A well-formed two-record collection with unique dates. -/
def exR6 : List Row := [⟨⟨2024, 3, 15⟩, 12⟩, ⟨⟨2023, 12, 31⟩, 0⟩]

/-! ### Grouping lemmas -/

lemma groupSum_cons {K : Type} [DecidableEq K] (r : Row) (rs : List Row) (key : Row → K)
    (k : K) :
    groupSum (r :: rs) key k = (if key r = k then r.flights else 0) + groupSum rs key k := by
  by_cases h : key r = k <;> simp [groupSum, List.filter_cons, h]

lemma sum_flights_filter_partition {K : Type} [DecidableEq K] (rows : List Row)
    (key : Row → K) (k : K) :
    groupSum rows key k
      + ((rows.filter (fun r => decide (key r ≠ k))).map (fun r => r.flights)).sum
      = (rows.map (fun r => r.flights)).sum := by
  induction rows with
  | nil => simp [groupSum]
  | cons r rs ih =>
    rw [List.map_cons, List.sum_cons, ← ih, groupSum_cons, List.filter_cons]
    by_cases h : key r = k
    · have hd : (decide (key r ≠ k)) = false := by simp [h]
      rw [if_pos h, hd]
      simp only [Bool.false_eq_true, if_false]
      omega
    · have hd : (decide (key r ≠ k)) = true := by simp [h]
      rw [if_neg h, hd]
      simp only [if_true, List.map_cons, List.sum_cons]
      omega

lemma groupSum_filter_ne {K : Type} [DecidableEq K] (rows : List Row) (key : Row → K)
    (k k' : K) (h : k' ≠ k) :
    groupSum (rows.filter (fun r => decide (key r ≠ k))) key k' = groupSum rows key k' := by
  induction rows with
  | nil => rfl
  | cons r rs ih =>
    rw [List.filter_cons]
    by_cases h1 : key r = k
    · have hd : (decide (key r ≠ k)) = false := by simp [h1]
      have h2 : ¬ key r = k' := by rw [h1]; exact fun hh => h hh.symm
      rw [hd]
      simp only [Bool.false_eq_true, if_false]
      rw [ih, groupSum_cons, if_neg h2, Nat.zero_add]
    · have hd : (decide (key r ≠ k)) = true := by simp [h1]
      rw [hd]
      simp only [if_true]
      rw [groupSum_cons, groupSum_cons, ih]

lemma sum_map_groupSum {K : Type} [DecidableEq K] (key : Row → K) (ks : List K) :
    ∀ rows : List Row, ks.Nodup → (∀ r ∈ rows, key r ∈ ks) →
      (ks.map (groupSum rows key)).sum = (rows.map (fun r => r.flights)).sum := by
  induction ks with
  | nil =>
    intro rows _ hcov
    cases rows with
    | nil => simp
    | cons r rs => exact absurd (hcov r (List.mem_cons_self r rs)) (List.not_mem_nil _)
  | cons k ks ih =>
    intro rows hnd hcov
    have hk : k ∉ ks := (List.nodup_cons.mp hnd).1
    have hnd2 := (List.nodup_cons.mp hnd).2
    have hcov2 : ∀ r ∈ rows.filter (fun r => decide (key r ≠ k)), key r ∈ ks := by
      intro r hr
      have hr2 := List.mem_filter.mp hr
      have hne : key r ≠ k := by simpa using hr2.2
      rcases List.mem_cons.mp (hcov r hr2.1) with h | h
      · exact absurd h hne
      · exact h
    have hmap : ks.map (groupSum rows key)
        = ks.map (groupSum (rows.filter (fun r => decide (key r ≠ k))) key) := by
      apply List.map_congr_left
      intro k2 hk2
      have hne : k2 ≠ k := fun heq => hk (heq ▸ hk2)
      exact (groupSum_filter_ne rows key k k2 hne).symm
    rw [List.map_cons, List.sum_cons, hmap,
      ih (rows.filter (fun r => decide (key r ≠ k))) hnd2 hcov2,
      sum_flights_filter_partition rows key k]

lemma sum_groupSums {K : Type} [DecidableEq K] (rows : List Row) (key : Row → K) :
    (groupSums rows key).sum = (rows.map (fun r => r.flights)).sum := by
  apply sum_map_groupSum key _ rows (List.nodup_dedup _)
  intro r hr
  exact List.mem_dedup.mpr (List.mem_map_of_mem _ hr)

lemma groupKeys_ne_nil {K : Type} [DecidableEq K] {rows : List Row} (h : rows ≠ [])
    (key : Row → K) : groupKeys rows key ≠ [] := by
  simpa [groupKeys, List.dedup_eq_nil] using h

lemma length_groupSums {K : Type} [DecidableEq K] (rows : List Row) (key : Row → K) :
    (groupSums rows key).length = (groupKeys rows key).length := by
  simp [groupSums]

lemma daily_avg_mul_distinct_aux {rows : List Row} (h : rows ≠ []) :
    daily_avg rows * (((rows.map (fun r => r.date)).dedup.length : ℕ) : ℚ)
      = totalFlights rows := by
  have hlen : (groupSums rows (fun r => r.date)).length
      = (rows.map (fun r => r.date)).dedup.length := length_groupSums rows _
  have hne : (((rows.map (fun r => r.date)).dedup.length : ℕ) : ℚ) ≠ 0 := by
    have hnil := groupKeys_ne_nil h (fun r => r.date)
    simp only [ne_eq, Nat.cast_eq_zero, List.length_eq_zero]
    exact fun hc => hnil hc
  rw [daily_avg, mean, hlen, div_mul_cancel₀ _ hne, sum_groupSums, totalFlights]

lemma daily_avg_pos {rows : List Row} (hne : rows ≠ [])
    (hpos : 0 < (rows.map (fun r => r.flights)).sum) : 0 < daily_avg rows := by
  rw [daily_avg, mean]
  apply div_pos
  · rw [sum_groupSums]; exact_mod_cast hpos
  · rw [length_groupSums]
    have := groupKeys_ne_nil hne (fun r => r.date)
    have : 0 < (groupKeys rows (fun r => r.date)).length :=
      List.length_pos.mpr this
    exact_mod_cast this

/-! ### Serialization round-trip lemmas -/

lemma charVal_dchar {d : Nat} (h : d < 10) : charVal (dchar d) = d := by
  interval_cases d <;> decide

lemma dchar_ne_hyphen {d : Nat} (h : d < 10) : dchar d ≠ hyphen := by
  interval_cases d <;> decide

lemma natCharsCore_digits {fuel : Nat} :
    ∀ {n : Nat}, n ≤ fuel → ∀ c ∈ natCharsCore fuel n, ∃ d, d < 10 ∧ c = dchar d := by
  induction fuel with
  | zero => intro n _ c hc; simp [natCharsCore] at hc
  | succ fuel ih =>
    intro n hn c hc
    rw [natCharsCore] at hc
    by_cases h0 : n = 0
    · rw [if_pos h0] at hc; simp at hc
    · rw [if_neg h0] at hc
      rcases List.mem_append.mp hc with h1 | h1
      · have hdiv : n / 10 ≤ fuel := by
          have : n / 10 < n := Nat.div_lt_self (Nat.pos_of_ne_zero h0) (by norm_num)
          omega
        exact ih hdiv c h1
      · have hc2 : c = dchar (n % 10) := by simpa using h1
        exact ⟨n % 10, Nat.mod_lt _ (by norm_num), hc2⟩

lemma parseNat_append_digit (l : List Char) {d : Nat} (hd : d < 10) :
    parseNatChars (l ++ [dchar d]) = d + 10 * parseNatChars l := by
  unfold parseNatChars
  rw [List.map_append, List.reverse_append]
  simp [charVal_dchar hd, Nat.ofDigits_cons]

lemma parseNat_natCharsCore {fuel : Nat} :
    ∀ {n : Nat}, n ≤ fuel → parseNatChars (natCharsCore fuel n) = n := by
  induction fuel with
  | zero =>
    intro n hn
    have : n = 0 := Nat.le_zero.mp hn
    subst this
    rfl
  | succ fuel ih =>
    intro n hn
    rw [natCharsCore]
    by_cases h0 : n = 0
    · rw [if_pos h0, h0]; rfl
    · have hdiv : n / 10 ≤ fuel := by
        have : n / 10 < n := Nat.div_lt_self (Nat.pos_of_ne_zero h0) (by norm_num)
        omega
      rw [if_neg h0, parseNat_append_digit _ (Nat.mod_lt _ (by norm_num)), ih hdiv]
      omega

lemma parseNat_natChars (n : Nat) : parseNatChars (natChars n) = n := by
  unfold natChars
  by_cases h : n = 0
  · rw [if_pos h, h]; rfl
  · rw [if_neg h]; exact parseNat_natCharsCore le_rfl

lemma ofDigits_replicate_zero (k : Nat) : Nat.ofDigits 10 (List.replicate k 0) = 0 := by
  induction k with
  | zero => rfl
  | succ k ih => simp [List.replicate_succ, Nat.ofDigits_cons, ih]

lemma parseNat_padLeft (w : Nat) (l : List Char) :
    parseNatChars (padLeft w l) = parseNatChars l := by
  unfold padLeft parseNatChars
  rw [List.map_append, List.reverse_append]
  have hz : (List.replicate (w - l.length) (dchar 0)).map charVal
      = List.replicate (w - l.length) 0 := by
    rw [List.map_replicate, charVal_dchar (by norm_num)]
  rw [hz, List.reverse_replicate, Nat.ofDigits_append, ofDigits_replicate_zero]
  simp

lemma hyphen_not_mem_natChars (n : Nat) : hyphen ∉ natChars n := by
  intro hmem
  unfold natChars at hmem
  by_cases h : n = 0
  · rw [if_pos h] at hmem
    simp at hmem
    exact dchar_ne_hyphen (by norm_num) hmem.symm
  · rw [if_neg h] at hmem
    obtain ⟨d, hd, hc⟩ := natCharsCore_digits le_rfl hyphen hmem
    exact dchar_ne_hyphen hd hc.symm

lemma hyphen_not_mem_pad (w n : Nat) : hyphen ∉ padLeft w (natChars n) := by
  intro hmem
  rcases List.mem_append.mp hmem with h | h
  · have := List.eq_of_mem_replicate h
    exact dchar_ne_hyphen (by norm_num) this.symm
  · exact hyphen_not_mem_natChars n h

lemma splitOnChar_not_mem {sep : Char} {l : List Char} (h : sep ∉ l) :
    splitOnChar sep l = [l] := by
  induction l with
  | nil => rfl
  | cons c cs ih =>
    have hc : ¬ c = sep := fun heq => h (heq ▸ List.mem_cons_self c cs)
    have hcs : sep ∉ cs := fun hm => h (List.mem_cons_of_mem c hm)
    rw [splitOnChar, if_neg hc, ih hcs]

lemma splitOnChar_append {sep : Char} {a : List Char} (h : sep ∉ a) (r : List Char) :
    splitOnChar sep (a ++ sep :: r) = a :: splitOnChar sep r := by
  induction a with
  | nil => simp [splitOnChar]
  | cons c cs ih =>
    have hc : ¬ c = sep := fun heq => h (heq ▸ List.mem_cons_self c cs)
    have hcs : sep ∉ cs := fun hm => h (List.mem_cons_of_mem c hm)
    rw [List.cons_append, splitOnChar, if_neg hc, ih hcs]

lemma dateChars_parts (d : Date) :
    splitOnChar hyphen (dateChars d)
      = [padLeft 4 (natChars d.year), padLeft 2 (natChars d.month),
         padLeft 2 (natChars d.day)] := by
  have hshape : dateChars d
      = padLeft 4 (natChars d.year)
        ++ hyphen :: (padLeft 2 (natChars d.month)
          ++ hyphen :: padLeft 2 (natChars d.day)) := by
    simp [dateChars]
  rw [hshape,
    splitOnChar_append (hyphen_not_mem_pad 4 d.year),
    splitOnChar_append (hyphen_not_mem_pad 2 d.month),
    splitOnChar_not_mem (hyphen_not_mem_pad 2 d.day)]

lemma parseNat_pad_natChars (w n : Nat) : parseNatChars (padLeft w (natChars n)) = n := by
  rw [parseNat_padLeft, parseNat_natChars]

lemma dateChars_injective {d1 d2 : Date} (h : dateChars d1 = dateChars d2) : d1 = d2 := by
  have hs := congrArg (splitOnChar hyphen) h
  rw [dateChars_parts, dateChars_parts] at hs
  simp only [List.cons.injEq, and_true] at hs
  obtain ⟨hy, hm, hd⟩ := hs
  have hy2 := congrArg parseNatChars hy
  have hm2 := congrArg parseNatChars hm
  have hd2 := congrArg parseNatChars hd
  rw [parseNat_pad_natChars, parseNat_pad_natChars] at hy2 hm2 hd2
  cases d1
  cases d2
  simp only at hy2 hm2 hd2
  rw [hy2, hm2, hd2]

lemma parseDate_dateChars {d : Date} (h : ValidDate d) :
    parseDateChars (dateChars d) = some d := by
  obtain ⟨h1, h2, h3, h4⟩ := h
  rw [parseDateChars, dateChars_parts]
  simp only [parseNat_padLeft, parseNat_natChars]
  rw [if_pos ⟨h1, h2, h3, h4⟩]

lemma any_dateChars_iff (rows : List Row) (d : Date) :
    rows.any (fun r => decide (dateChars r.date = dateChars d)) = true
      ↔ ∃ r ∈ rows, r.date = d := by
  rw [List.any_eq_true]
  constructor
  · rintro ⟨r, hr, hd⟩
    exact ⟨r, hr, dateChars_injective (by simpa using hd)⟩
  · rintro ⟨r, hr, hd⟩
    refine ⟨r, hr, ?_⟩
    simp [hd]

lemma parseRow_serializeRow {r : Row} (h : ValidDate r.date) :
    parseRow (serializeRow r) = some r := by
  unfold parseRow serializeRow
  rw [parseDate_dateChars h]
  simp [parseNat_natChars]

lemma parseRows_save {R : List Row} (h : ∀ r ∈ R, ValidDate r.date) :
    parseRows (save_data R) = some R := by
  induction R with
  | nil => rfl
  | cons r rs ih =>
    have h1 : ValidDate r.date := h r (List.mem_cons_self r rs)
    have h2 : ∀ x ∈ rs, ValidDate x.date := fun x hx => h x (List.mem_cons_of_mem r hx)
    rw [save_data, List.map_cons, parseRows, parseRow_serializeRow h1]
    have := ih h2
    rw [save_data] at this
    rw [this]

/-! ### Truncation and projection lemmas -/

lemma truncQ_of_nonneg {q : ℚ} (h : 0 ≤ q) : truncQ q = ⌊q⌋ := by
  rw [truncQ, Int.tdiv_eq_ediv (Rat.num_nonneg.mpr h) (Int.natCast_nonneg _), Rat.floor_def]

lemma truncQ_of_neg {q : ℚ} (h : q < 0) : truncQ q = ⌈q⌉ := by
  have hq : 0 ≤ -q := by linarith
  have h1 : truncQ (-q) = ⌊-q⌋ := truncQ_of_nonneg hq
  rw [truncQ, Rat.num_neg_eq_neg_num, Rat.den_neg_eq_den, Int.neg_tdiv, Int.floor_neg] at h1
  rw [truncQ]
  omega

lemma rows_ne_nil_of_not_isEmpty {df : DataFrame} (h : df.rows ≠ []) :
    ¬ df.rows.isEmpty = true := by
  simpa [List.isEmpty_iff] using h

lemma predict_eq_some {today : ℚ} {df : DataFrame} (hne : df.rows ≠ [])
    (hpos : 0 < daily_avg df.rows) :
    predict_completion_date today df
      = some (today + (TOTAL_FLIGHTS_KINABALU - totalFlights df.rows) / daily_avg df.rows,
              truncQ ((TOTAL_FLIGHTS_KINABALU - totalFlights df.rows) / daily_avg df.rows)) := by
  unfold predict_completion_date
  rw [if_neg (rows_ne_nil_of_not_isEmpty hne)]
  dsimp only
  rw [if_pos hpos]

lemma predict_eq_none_iff (today : ℚ) (df : DataFrame) :
    predict_completion_date today df = none ↔ df.rows = [] ∨ daily_avg df.rows ≤ 0 := by
  constructor
  · intro h
    by_cases hne : df.rows = []
    · exact Or.inl hne
    · by_cases hpos : 0 < daily_avg df.rows
      · rw [predict_eq_some hne hpos] at h; exact absurd h (by simp)
      · exact Or.inr (le_of_not_lt hpos)
  · intro h
    rcases h with h | h
    · unfold predict_completion_date
      rw [if_pos (by simpa [List.isEmpty_iff] using h)]
    · by_cases hne : df.rows = []
      · unfold predict_completion_date
        rw [if_pos (by simpa [List.isEmpty_iff] using hne)]
      · unfold predict_completion_date
        rw [if_neg (rows_ne_nil_of_not_isEmpty hne)]
        dsimp only
        rw [if_neg (not_lt.mpr h)]

/-! ### Evaluation lemmas for the concrete examples (the rational arithmetic
is settled by `norm_num`; the underlying natural-number grouping is settled
by kernel computation) -/

lemma daily_avg_exDf1 : daily_avg exDf1.rows = 100 := by
  rw [daily_avg, show groupSums exDf1.rows (fun r => r.date) = [100] from by decide]
  norm_num [mean]

lemma daily_avg_exDf10a : daily_avg exDf10a.rows = 800 := by
  rw [daily_avg, show groupSums exDf10a.rows (fun r => r.date) = [800] from by decide]
  norm_num [mean]

lemma daily_avg_exDf10b : daily_avg exDf10b.rows = 1700 := by
  rw [daily_avg, show groupSums exDf10b.rows (fun r => r.date) = [1700] from by decide]
  norm_num [mean]

lemma totalFlights_exDf4 : totalFlights exDf4.rows = 2000 := by
  norm_num [totalFlights, exDf4]

lemma totalFlights_exDf10a : totalFlights exDf10a.rows = 800 := by
  norm_num [totalFlights, exDf10a]

lemma totalFlights_exDf10b : totalFlights exDf10b.rows = 1700 := by
  norm_num [totalFlights, exDf10b]

lemma daily_avg_exDf1_pos : 0 < daily_avg exDf1.rows := by
  rw [daily_avg_exDf1]; norm_num

lemma daily_avg_exDf10a_pos : 0 < daily_avg exDf10a.rows := by
  rw [daily_avg_exDf10a]; norm_num

lemma target_lt_total_exDf4 : TOTAL_FLIGHTS_KINABALU < totalFlights exDf4.rows := by
  rw [TOTAL_FLIGHTS_KINABALU, totalFlights_exDf4]; norm_num

lemma nonneg_nineteen_tenths : 0 ≤ (19 : ℚ) / 10 := by norm_num

/-- Reference values pinning the ISO-week implementation to known calendar
facts: 2023-01-01 is 2022-W52-7, 2024-12-30 is 2025-W01-1, 2020-12-31 is
2020-W53-4, 2023-02-06 and 2024-02-05 are both in week 6, and 2024-02-05 is
a Monday. -/
lemma isoWeek_reference_values :
    isoWeek ⟨2023, 1, 1⟩ = 52 ∧ isoWeek ⟨2024, 12, 30⟩ = 1 ∧
    isoWeek ⟨2020, 12, 31⟩ = 53 ∧ isoWeek ⟨2023, 2, 6⟩ = 6 ∧
    isoWeek ⟨2024, 2, 5⟩ = 6 ∧ isoDow ⟨2024, 2, 5⟩ = 1 := by
  decide

/-! ### Claim theorems -/

/-- Claim C1: `predict_completion_date` returns `None` exactly when the record
set is empty or the daily average is not positive; otherwise it returns the
pair built from `daysRemaining = (targetFlights - totalClimbed) / dailyAvg`:
the completion datetime is exactly `today + daysRemaining` days and the
returned day count is that quotient (truncated to whole days by `int()`,
see C10), with `totalClimbed` the sum of all flights and `dailyAvg` the mean
of per-date summed flights. -/
theorem predictCompletion_contract (today : ℚ) (df : DataFrame) :
    (predict_completion_date today df = none ↔ df.rows = [] ∨ daily_avg df.rows ≤ 0) ∧
    (df.rows ≠ [] → 0 < daily_avg df.rows →
      predict_completion_date today df
        = some (today + (TOTAL_FLIGHTS_KINABALU - totalFlights df.rows) / daily_avg df.rows,
                truncQ ((TOTAL_FLIGHTS_KINABALU - totalFlights df.rows) / daily_avg df.rows))) :=
  ⟨predict_eq_none_iff today df, fun h1 h2 => predict_eq_some h1 h2⟩

/-- Witness for C1 at a concrete input: one record of 100 flights, a positive
daily average, and the projected pair as stated. -/
theorem predictCompletion_contract_witness :
    exDf1.rows ≠ [] ∧ 0 < daily_avg exDf1.rows ∧
    predict_completion_date 0 exDf1
      = some (0 + (TOTAL_FLIGHTS_KINABALU - totalFlights exDf1.rows) / daily_avg exDf1.rows,
              truncQ ((TOTAL_FLIGHTS_KINABALU - totalFlights exDf1.rows) / daily_avg exDf1.rows)) :=
  ⟨by decide, daily_avg_exDf1_pos,
   (predictCompletion_contract 0 exDf1).2 (by decide) daily_avg_exDf1_pos⟩

/-- Claim C2 (code bug): the spec describes weeklyAvg and monthlyAvg as
means over year-ignoring ISO-week-number and month-number buckets, and the
grouping keys in the source text (`isocalendar().week`, `.month`) indeed
carry no year — the cross-year dates here, 2023-02-06 and 2024-02-05, share
week number 6 and month number 2.  But the program never computes these
means: on every non-empty frame `calculate_averages` raises AttributeError
at line 32 (`.dt` accessor on the object-dtype `Date` column produced by
`load_data` line 19) before any grouping.  Evaluated at the cross-year
record set. -/
theorem weeklyMonthly_means_unreachable :
    calculate_averages crossYearDf = .error dtAccessorError ∧
    crossYearDf.rows ≠ [] ∧
    isoWeek ⟨2023, 2, 6⟩ = isoWeek ⟨2024, 2, 5⟩ ∧
    (⟨2023, 2, 6⟩ : Date).month = (⟨2024, 2, 5⟩ : Date).month :=
  ⟨rfl, by decide, by decide, rfl⟩

/-- Claim C3: the Add Entry handler rejects a date that already has a record,
leaving both the in-memory collection and the persisted file untouched; for a
fresh date it appends exactly the new record at the end, keeping every prior
record, and saves. -/
theorem addEntry_guard (file : Option CsvFile) (rows : List Row) (d : Date) (f : Nat) :
    ((∃ r ∈ rows, r.date = d) → addEntryHandler file rows d f = (file, rows, false)) ∧
    ((∀ r ∈ rows, r.date ≠ d) →
      addEntryHandler file rows d f
        = (some (save_data (rows ++ [⟨d, f⟩])), rows ++ [⟨d, f⟩], true)) := by
  constructor
  · intro h
    unfold addEntryHandler
    rw [if_pos ((any_dateChars_iff rows d).mpr h)]
  · intro h
    have hany : ¬ rows.any (fun r => decide (dateChars r.date = dateChars d)) = true := by
      intro hc
      rcases (any_dateChars_iff rows d).mp hc with ⟨r, hr, hd⟩
      exact h r hr hd
    unfold addEntryHandler
    rw [if_neg hany]

/-- Witness for C3 at concrete inputs: inserting 2024-01-01 again over the
stored record `{2024-01-01: 50}` is rejected without mutation, and inserting
the fresh date 2024-01-02 appends exactly that record. -/
theorem addEntry_guard_witness :
    (∃ r ∈ exRows3, r.date = ⟨2024, 1, 1⟩) ∧
    addEntryHandler none exRows3 ⟨2024, 1, 1⟩ 99 = (none, exRows3, false) ∧
    (∀ r ∈ exRows3, r.date ≠ ⟨2024, 1, 2⟩) ∧
    addEntryHandler none exRows3 ⟨2024, 1, 2⟩ 7
      = (some (save_data (exRows3 ++ [⟨⟨2024, 1, 2⟩, 7⟩])),
         exRows3 ++ [⟨⟨2024, 1, 2⟩, 7⟩], true) :=
  ⟨by decide, (addEntry_guard none exRows3 ⟨2024, 1, 1⟩ 99).1 (by decide),
   by decide, (addEntry_guard none exRows3 ⟨2024, 1, 2⟩ 7).2 (by decide)⟩

/-- Claim C4: when the total flights climbed exceed the target, the projector
still returns a value: the remaining count is negative, the (real) number of
days remaining is negative, the returned pair is exactly the unclamped
projection, and the projected completion datetime lies strictly before
today. -/
theorem predict_target_exceeded (today : ℚ) (df : DataFrame)
    (h : TOTAL_FLIGHTS_KINABALU < totalFlights df.rows) :
    TOTAL_FLIGHTS_KINABALU - totalFlights df.rows < 0 ∧
    (TOTAL_FLIGHTS_KINABALU - totalFlights df.rows) / daily_avg df.rows < 0 ∧
    predict_completion_date today df
      = some (today + (TOTAL_FLIGHTS_KINABALU - totalFlights df.rows) / daily_avg df.rows,
              truncQ ((TOTAL_FLIGHTS_KINABALU - totalFlights df.rows) / daily_avg df.rows)) ∧
    today + (TOTAL_FLIGHTS_KINABALU - totalFlights df.rows) / daily_avg df.rows < today := by
  have htot : 0 < totalFlights df.rows :=
    lt_trans (by norm_num [TOTAL_FLIGHTS_KINABALU]) h
  have hne : df.rows ≠ [] := by
    intro hnil
    rw [totalFlights, hnil] at htot
    norm_num at htot
  have hsum : 0 < (df.rows.map (fun r => r.flights)).sum := by
    by_contra hz
    push_neg at hz
    have h0 : (df.rows.map (fun r => r.flights)).sum = 0 := Nat.le_zero.mp hz
    rw [totalFlights, h0] at htot
    norm_num at htot
  have havg : 0 < daily_avg df.rows := daily_avg_pos hne hsum
  have hrem : TOTAL_FLIGHTS_KINABALU - totalFlights df.rows < 0 := by linarith
  have hq : (TOTAL_FLIGHTS_KINABALU - totalFlights df.rows) / daily_avg df.rows < 0 :=
    div_neg_of_neg_of_pos hrem havg
  exact ⟨hrem, hq, predict_eq_some hne havg, by linarith⟩

/-- Witness for C4 at a concrete input: 2000 flights climbed against the
1679.375-flight target. -/
theorem predict_target_exceeded_witness :
    TOTAL_FLIGHTS_KINABALU < totalFlights exDf4.rows ∧
    (TOTAL_FLIGHTS_KINABALU - totalFlights exDf4.rows < 0 ∧
     (TOTAL_FLIGHTS_KINABALU - totalFlights exDf4.rows) / daily_avg exDf4.rows < 0 ∧
     predict_completion_date 0 exDf4
       = some (0 + (TOTAL_FLIGHTS_KINABALU - totalFlights exDf4.rows) / daily_avg exDf4.rows,
               truncQ ((TOTAL_FLIGHTS_KINABALU - totalFlights exDf4.rows) / daily_avg exDf4.rows)) ∧
     0 + (TOTAL_FLIGHTS_KINABALU - totalFlights exDf4.rows) / daily_avg exDf4.rows < 0) :=
  ⟨target_lt_total_exDf4, predict_target_exceeded 0 exDf4 target_lt_total_exDf4⟩

/-- Claim C5 (code bug): the claim is about the dailyAvg returned by
`calculate_averages`, but for non-empty data the function raises at line 32
before the daily mean of line 35 is reached, so it never returns a daily
average.  The identical expression computed by the projector at line 46
(`daily_avg`) does satisfy the claimed identity — dailyAvg times the number
of distinct dates equals the total flights sum — shown here at the
two-record failing input (15 * 2 = 30). -/
theorem dailyAvg_identity_unreachable :
    calculate_averages exDf5 = .error dtAccessorError ∧
    exDf5.rows ≠ [] ∧
    daily_avg exDf5.rows * (((exDf5.rows.map (fun r => r.date)).dedup.length : ℕ) : ℚ)
      = totalFlights exDf5.rows :=
  ⟨rfl, by decide, daily_avg_mul_distinct_aux (by decide)⟩

/-- Claim C7 (code bug): the spec calls `calculate_averages` a pure function
of the record set; the program instead raises AttributeError at line 32 on
every non-empty frame and computes no averages at all.  (The exception is
raised while evaluating the `.dt` accessor, before the `Week` / `Month`
column assignments of lines 32-33, so the frame is indeed left unmutated —
but only because the function crashes first, not because it is a pure
aggregator.)  Evaluated at a one-record frame. -/
theorem calculateAverages_raises_not_pure :
    calculate_averages exDf7 = .error dtAccessorError ∧ exDf7.rows ≠ [] :=
  ⟨rfl, by decide⟩

/-- Claim C6: loading after saving a well-formed record collection with
unique dates returns exactly that collection — dates and flight counts
survive the CSV round trip. -/
theorem load_save_roundtrip (R : List Row) (hvalid : ∀ r ∈ R, ValidDate r.date)
    (_hnodup : (R.map (fun r => r.date)).Nodup) :
    load_data (some (save_data R)) = some R :=
  parseRows_save hvalid

/-- Witness for C6 at a concrete two-record collection (including a
zero-flight record and a December 31 date). -/
theorem load_save_roundtrip_witness :
    (∀ r ∈ exR6, ValidDate r.date) ∧ (exR6.map (fun r => r.date)).Nodup ∧
    load_data (some (save_data exR6)) = some exR6 :=
  ⟨by decide, by decide, load_save_roundtrip exR6 (by decide) (by decide)⟩

/-- Claim C8: after the Reset Data handler runs, loading returns the empty
collection, and `calculate_averages` of an empty frame returns `(0, 0, 0)`
(the `data.empty` guard fires before any `.dt` use, so this branch really
does return). -/
theorem reset_then_load_empty (file : Option CsvFile) :
    load_data (reset_handler file).1 = some [] ∧
    calculate_averages ⟨[], none, none⟩ = .ok (⟨[], none, none⟩, 0, 0, 0) :=
  ⟨rfl, rfl⟩

/-- Claim C9: when the persisted file does not exist, `load_data` returns the
empty collection rather than an error — the first-run state. -/
theorem load_missing_file : load_data none = some [] := rfl

/-- Claim C10: the integer day count returned by the projector is the real
quotient truncated toward zero (Python `int()`), not floored: in general the
returned count is `truncQ` of the quotient, `truncQ` agrees with floor on
non-negative rationals and with ceiling on negative ones (1.9 yields 1,
-10.5 yields -10), and concretely a fractional positive quotient
(7035/6400 days) yields 1 while a fractional negative quotient
(-165/13600 days) yields 0, where flooring would give -1. -/
theorem predict_truncates_toward_zero :
    (∀ (today : ℚ) (df : DataFrame), df.rows ≠ [] → 0 < daily_avg df.rows →
      (predict_completion_date today df).map Prod.snd
        = some (truncQ ((TOTAL_FLIGHTS_KINABALU - totalFlights df.rows) / daily_avg df.rows))) ∧
    (∀ q : ℚ, 0 ≤ q → truncQ q = ⌊q⌋) ∧
    (∀ q : ℚ, q < 0 → truncQ q = ⌈q⌉) ∧
    truncQ (19 / 10) = 1 ∧ truncQ (-21 / 2) = -10 ∧
    (predict_completion_date 0 exDf10a).map Prod.snd = some 1 ∧
    (predict_completion_date 0 exDf10b).map Prod.snd = some 0 ∧
    ⌊(TOTAL_FLIGHTS_KINABALU - totalFlights exDf10b.rows) / daily_avg exDf10b.rows⌋ = -1 := by
  have hqa : (TOTAL_FLIGHTS_KINABALU - totalFlights exDf10a.rows) / daily_avg exDf10a.rows
      = 7035 / 6400 := by
    rw [TOTAL_FLIGHTS_KINABALU, totalFlights_exDf10a, daily_avg_exDf10a]
    norm_num
  have hqb : (TOTAL_FLIGHTS_KINABALU - totalFlights exDf10b.rows) / daily_avg exDf10b.rows
      = -165 / 13600 := by
    rw [TOTAL_FLIGHTS_KINABALU, totalFlights_exDf10b, daily_avg_exDf10b]
    norm_num
  have hfa : ⌊(7035 / 6400 : ℚ)⌋ = 1 := by
    rw [Int.floor_eq_iff]
    norm_num
  have hcb : ⌈(-165 / 13600 : ℚ)⌉ = 0 := by
    rw [Int.ceil_eq_iff]
    norm_num
  have hfb : ⌊(-165 / 13600 : ℚ)⌋ = -1 := by
    rw [Int.floor_eq_iff]
    norm_num
  refine ⟨?_, fun q h => truncQ_of_nonneg h, fun q h => truncQ_of_neg h, ?_, ?_, ?_, ?_, ?_⟩
  · intro today df h1 h2
    rw [predict_eq_some h1 h2]
    rfl
  · rw [truncQ_of_nonneg (by norm_num), Int.floor_eq_iff]
    norm_num
  · rw [truncQ_of_neg (by norm_num), Int.ceil_eq_iff]
    norm_num
  · rw [predict_eq_some (by decide) (by simp [daily_avg_exDf10a]), Option.map_some']
    rw [hqa, truncQ_of_nonneg (by norm_num), hfa]
  · rw [predict_eq_some (by decide) (by simp [daily_avg_exDf10b]), Option.map_some']
    rw [hqb, truncQ_of_neg (by norm_num), hcb]
  · rw [hqb, hfb]

/-- Witness for C10 at a concrete input with a fractional positive
quotient. -/
theorem predict_truncates_toward_zero_witness :
    exDf10a.rows ≠ [] ∧ 0 < daily_avg exDf10a.rows ∧
    (predict_completion_date 0 exDf10a).map Prod.snd
      = some (truncQ ((TOTAL_FLIGHTS_KINABALU - totalFlights exDf10a.rows)
          / daily_avg exDf10a.rows)) ∧
    0 ≤ (19 : ℚ) / 10 ∧ truncQ (19 / 10) = ⌊(19 : ℚ) / 10⌋ :=
  ⟨by decide, daily_avg_exDf10a_pos,
   predict_truncates_toward_zero.1 0 exDf10a (by decide) daily_avg_exDf10a_pos,
   nonneg_nineteen_tenths, predict_truncates_toward_zero.2.1 (19 / 10) nonneg_nineteen_tenths⟩
